import Mathlib

/-!
Shallow embedding of `tlcontext` (src/tlcontext.hpp), a generic ambient-context
propagation mechanism.  For each payload type `T` the library keeps two slots:

* `global_top_ptr<T>`   — one process-wide pointer, `constinit`-ed to `nullptr`;
* `local_top_ptr<T>`    — one pointer per thread (`thread_local`), also null.

An `impl::guard<T, TLocal>` stores a payload `_data` and the previous slot value
`_prev`; its constructor first constructs `_data`, then saves the slot into
`_prev` and installs `&_data` as the new slot value; its destructor writes
`_prev` back unconditionally.  The accessors `get_local`, `get_global`,
`get_top` read the slots; in the `TLCONTEXT_DEBUG` build a null slot makes them
print a fatal diagnostic and abort.

Embedding choices:

* A slot's pointer, together with the intrusive `_prev` chain it reaches, is
  represented as a `List T`: the head is the payload `*ptr` of the guard the
  slot points to, the tail is the chain reached through that guard's `_prev`.
  The null pointer is the empty list.  Under LIFO discipline this list is
  exactly the stack of payloads of the live guards for that slot.
* Threads are identified by `Nat`; `local_top_ptr<T>` becomes a function
  `Nat → List T`.  `thread_local` means an operation on thread `t` touches
  only index `t`.
* A checked-build abort with message `m` is modelled as `Except.error m`; a
  normal return of the payload `x` is `Except.ok x`.
* A throwing payload constructor is modelled by passing `Except.error e` as
  the already-evaluated constructor argument: in the C++ constructor the
  member initializer `_data{...}` runs before the body, so on a throw the body
  (the only slot access) never runs and the state passes through unchanged.
-/

namespace tlcontext

/-- State of the two slots of a single payload type `T`
(`impl::global_top_ptr<T>` and `impl::local_top_ptr<T>`, lines 26-30 of
`tlcontext.hpp`).  Each slot is the pointer together with its `_prev` chain,
as a `List T`; `localTop` is indexed by thread id. -/
@[ext]
structure State (T : Type) where
  globalTop : List T
  localTop : Nat → List T

/-- Initial state: both slots are `constinit`-ed to `nullptr` for every
thread. -/
def State.init (T : Type) : State T :=
  { globalTop := [], localTop := fun _ => [] }

/-- The slot selected by `(TLocal ? local_top_ptr<T> : global_top_ptr<T>)`
(line 62), read on thread `t`. -/
def slot_ref {T : Type} (TLocal : Bool) (t : Nat) (s : State T) : List T :=
  if TLocal then s.localTop t else s.globalTop

/-- Writing the slot selected by `TLocal` on thread `t`.  A thread-local write
changes only index `t`; a global write changes only `globalTop`. -/
def slot_write {T : Type} (TLocal : Bool) (t : Nat) (s : State T) (v : List T) :
    State T :=
  if TLocal then { s with localTop := Function.update s.localTop t v }
  else { s with globalTop := v }

/-- `impl::guard<T, TLocal>` (lines 49-75): the payload `_data` it owns and
the saved previous slot value `_prev` (here: the previous chain). -/
structure guard (T : Type) where
  _data : T
  _prev : List T

/-- The guard constructor (lines 57-66) on thread `t` with an already
constructed payload `x`: save the slot into `_prev`, then install the new
guard (its chain is `x` followed by the saved chain).  Returns the guard and
the updated state. -/
def guard_ctor {T : Type} (TLocal : Bool) (t : Nat) (x : T) (s : State T) :
    guard T × State T :=
  let prev := slot_ref TLocal t s
  (⟨x, prev⟩, slot_write TLocal t s (x :: prev))

/-- The guard constructor with a possibly-throwing payload constructor
(line 60: the member initializer `_data{static_cast<Ts&&>(xs)...}` runs before
the constructor body).  `mk` is the outcome of constructing the payload: on
`Except.error e` the body never runs, the exception propagates and the state
passes through unchanged; on `Except.ok x` this is `guard_ctor`. -/
def guard_ctor_try {T E : Type} (TLocal : Bool) (t : Nat) (mk : Except E T)
    (s : State T) : Except E (guard T) × State T :=
  match mk with
  | .error e => (.error e, s)
  | .ok x =>
      let r := guard_ctor TLocal t x s
      (.ok r.1, r.2)

/-- The guard destructor (lines 68-71) on thread `t`: unconditionally write
the saved `_prev` back into the slot.  It is a total function: destruction
never fails. -/
def guard_dtor {T : Type} (TLocal : Bool) (t : Nat) (g : guard T) (s : State T) :
    State T :=
  slot_write TLocal t s g._prev

/-- `helper<T>::get_local` (lines 105-114) called on thread `t`, checked
(`TLCONTEXT_DEBUG`) build: if the thread-local slot is null, abort with the
diagnostic (modelled as `Except.error`), else return the pointed-to payload. -/
def get_local {T : Type} (t : Nat) (s : State T) : Except String T :=
  match s.localTop t with
  | [] => .error "tried using inactive local context"
  | x :: _ => .ok x

/-- `helper<T>::get_global` (lines 118-127), checked build: if the global slot
is null, abort with the diagnostic, else return the pointed-to payload. -/
def get_global {T : Type} (s : State T) : Except String T :=
  match s.globalTop with
  | [] => .error "tried using inactive global context"
  | x :: _ => .ok x

/-- `helper<T>::get_top` (lines 132-146) called on thread `t`, checked build:
return the thread-local payload if that slot is non-null; otherwise fall back
to the global slot, aborting with the diagnostic if it is null too. -/
def get_top {T : Type} (t : Nat) (s : State T) : Except String T :=
  match s.localTop t with
  | x :: _ => .ok x
  | [] =>
      match s.globalTop with
      | [] => .error "no available context"
      | y :: _ => .ok y

/-- One client operation on the slots of payload type `T`: entering a scope
that declares a guard (`enter`, with its flavor, thread and payload), or
leaving the most recently entered still-open scope (`leave`).  Scope exit
always destroys the most recently constructed live guard, which is how C++
block structure sequences destructors. -/
inductive Op (T : Type) where
  | enter (tlocal : Bool) (tid : Nat) (x : T)
  | leave

/-- A live (constructed, not yet destroyed) guard, with the flavor and thread
it was installed on. -/
structure OpenGuard (T : Type) where
  tlocal : Bool
  tid : Nat
  g : guard T

/-- A configuration: the slot state plus the stack of live guards, innermost
first. -/
abbrev Config (T : Type) := State T × List (OpenGuard T)

/-- Executing one operation: `enter` runs the guard constructor and pushes the
new guard on the live stack; `leave` runs the destructor of the innermost live
guard and pops it (on an empty stack it is a no-op; well-nested traces never
reach that case). -/
def step {T : Type} (c : Config T) : Op T → Config T
  | .enter L t x =>
      let r := guard_ctor L t x c.1
      (r.2, ⟨L, t, r.1⟩ :: c.2)
  | .leave =>
      match c.2 with
      | [] => c
      | og :: rest => (guard_dtor og.tlocal og.tid og.g c.1, rest)

/-- Executing a sequence of operations in order. -/
def runOps {T : Type} (ops : List (Op T)) (c : Config T) : Config T :=
  ops.foldl step c

/-- The configuration of a fresh process: initial state, no live guard. -/
def initConfig (T : Type) : Config T :=
  (State.init T, [])

/-- Whether a live guard belongs to the slot selected by `(TLocal, t)`:
flavors must match, and for the thread-local flavor the threads must match
(a global guard belongs to the single global slot whatever thread installed
it). -/
def sameSlot {T : Type} (TLocal : Bool) (t : Nat) (og : OpenGuard T) : Bool :=
  og.tlocal == TLocal && (!TLocal || og.tid == t)

/-- Payloads of the live guards belonging to the slot `(TLocal, t)`, most
recently constructed first. -/
def liveFor {T : Type} (TLocal : Bool) (t : Nat) (stk : List (OpenGuard T)) :
    List T :=
  (stk.filter (sameSlot TLocal t)).map (fun og => og.g._data)

/-- Structural invariant on the live stack: every live guard's saved `_prev`
is exactly the chain of the live guards below it that belong to its own
slot. -/
def prevOk {T : Type} : List (OpenGuard T) → Prop
  | [] => True
  | og :: rest => og.g._prev = liveFor og.tlocal og.tid rest ∧ prevOk rest

/-- Invariant tying a configuration together: every slot holds exactly the
chain of its live guards' payloads, and every saved `_prev` is coherent. -/
def configInv {T : Type} (c : Config T) : Prop :=
  (∀ L t, slot_ref L t c.1 = liveFor L t c.2) ∧ prevOk c.2

/-- Bracket check with `n` scopes currently open: a `leave` may only close a
scope opened within the trace. -/
def nestedFrom {T : Type} (n : Nat) : List (Op T) → Bool
  | [] => true
  | Op.enter _ _ _ :: rest => nestedFrom (n + 1) rest
  | Op.leave :: rest => n != 0 && nestedFrom (n - 1) rest

/-- A well-nested trace: no `leave` without a matching earlier `enter`. -/
def wellNested {T : Type} (ops : List (Op T)) : Bool :=
  nestedFrom 0 ops

/-- Fully balanced traces: every entered scope is left again, in LIFO order.
This is the shape of a completed block of well-nested C++ scopes. -/
inductive Balanced {T : Type} : List (Op T) → Prop
  | nil : Balanced []
  | block (L : Bool) (t : Nat) (x : T) {body rest : List (Op T)} :
      Balanced body → Balanced rest →
      Balanced (Op.enter L t x :: body ++ Op.leave :: rest)

/-- Combined state for two distinct payload types `T` and `U`: the template
variables `global_top_ptr<T>` / `local_top_ptr<T>` and `global_top_ptr<U>` /
`local_top_ptr<U>` are distinct objects, so the combined state is a plain
product. -/
structure State2 (T U : Type) where
  stT : State T
  stU : State U

/-- A `T`-guard constructor acting on the combined state: it is the
instantiation of lines 57-66 for `T`, which names only `T`'s template
variables. -/
def ctorT {T U : Type} (TLocal : Bool) (t : Nat) (x : T) (p : State2 T U) :
    guard T × State2 T U :=
  let r := guard_ctor TLocal t x p.stT
  (r.1, { stT := r.2, stU := p.stU })

/-- A `T`-guard destructor acting on the combined state. -/
def dtorT {T U : Type} (TLocal : Bool) (t : Nat) (g : guard T) (p : State2 T U) :
    State2 T U :=
  { stT := guard_dtor TLocal t g p.stT, stU := p.stU }

/-- One `T`-operation on the combined state (with `T`'s live-guard stack). -/
def stepT {T U : Type} (p : State2 T U × List (OpenGuard T)) (op : Op T) :
    State2 T U × List (OpenGuard T) :=
  let r := step (p.1.stT, p.2) op
  ({ stT := r.1, stU := p.1.stU }, r.2)

/-- A sequence of `T`-operations on the combined state. -/
def runOpsT {T U : Type} (ops : List (Op T))
    (p : State2 T U × List (OpenGuard T)) : State2 T U × List (OpenGuard T) :=
  ops.foldl stepT p

/-! ### Slot lemmas -/

theorem slot_ref_write_self {T : Type} (L : Bool) (t : Nat) (s : State T)
    (v : List T) : slot_ref L t (slot_write L t s v) = v := by
  cases L <;> simp [slot_ref, slot_write]

theorem slot_ref_local_write_local {T : Type} (t u : Nat) (s : State T)
    (v : List T) :
    slot_ref true t (slot_write true u s v) =
      if t = u then v else slot_ref true t s := by
  simp only [slot_ref, slot_write, if_true]
  by_cases h : t = u
  · subst h; simp
  · simp [Function.update_noteq h, h]

theorem slot_ref_local_write_global {T : Type} (t u : Nat) (s : State T)
    (v : List T) : slot_ref true t (slot_write false u s v) = slot_ref true t s := by
  simp [slot_ref, slot_write]

theorem slot_ref_global_write_local {T : Type} (t u : Nat) (s : State T)
    (v : List T) : slot_ref false t (slot_write true u s v) = slot_ref false t s := by
  simp [slot_ref, slot_write]

theorem slot_ref_global_write_global {T : Type} (t u : Nat) (s : State T)
    (v : List T) : slot_ref false t (slot_write false u s v) = v := by
  simp [slot_ref, slot_write]

theorem slot_write_write {T : Type} (L : Bool) (t : Nat) (s : State T)
    (v w : List T) : slot_write L t (slot_write L t s v) w = slot_write L t s w := by
  cases L <;> simp [slot_write, Function.update_idem]

theorem slot_write_ref_self {T : Type} (L : Bool) (t : Nat) (s : State T) :
    slot_write L t s (slot_ref L t s) = s := by
  cases L <;> simp [slot_write, slot_ref, Function.update_eq_self]

theorem ctor_dtor_roundtrip {T : Type} (L : Bool) (t : Nat) (x : T)
    (s : State T) :
    guard_dtor L t (guard_ctor L t x s).1 (guard_ctor L t x s).2 = s := by
  simp [guard_ctor, guard_dtor, slot_write_write, slot_write_ref_self]

/-! ### Live-stack lemmas -/

theorem liveFor_cons {T : Type} (L : Bool) (t : Nat) (og : OpenGuard T)
    (stk : List (OpenGuard T)) :
    liveFor L t (og :: stk) =
      if sameSlot L t og then og.g._data :: liveFor L t stk
      else liveFor L t stk := by
  by_cases h : sameSlot L t og <;> simp [liveFor, List.filter_cons, h]

theorem liveFor_global_tid {T : Type} (t u : Nat) (stk : List (OpenGuard T)) :
    liveFor false t stk = liveFor false u stk := by
  have h : (sameSlot false t : OpenGuard T → Bool) = sameSlot false u := by
    funext og; simp [sameSlot]
  simp [liveFor, h]

/-! ### Invariant preservation -/

theorem enter_slot {T : Type} (x : T) (L L' : Bool) (t t' : Nat) (s : State T)
    (stk : List (OpenGuard T))
    (hslot : ∀ M u, slot_ref M u s = liveFor M u stk) :
    slot_ref L' t' (slot_write L t s (x :: slot_ref L t s)) =
      liveFor L' t' ({ tlocal := L, tid := t, g := ⟨x, slot_ref L t s⟩ } :: stk) := by
  rw [liveFor_cons]
  cases L <;> cases L'
  · have h := hslot false t'
    simp [slot_ref] at h
    simp [slot_ref, slot_write, sameSlot, h]
  · have h := hslot true t'
    simp [slot_ref] at h
    simp [slot_ref, slot_write, sameSlot, h]
  · have h := hslot false t'
    simp [slot_ref] at h
    simp [slot_ref, slot_write, sameSlot, h]
  · by_cases ht : t' = t
    · subst ht
      have h := hslot true t'
      simp [slot_ref] at h
      simp [slot_ref, slot_write, sameSlot, h]
    · have h := hslot true t'
      simp [slot_ref] at h
      have hne : t ≠ t' := fun hc => ht hc.symm
      simp [slot_ref, slot_write, sameSlot, Function.update_noteq ht, h, hne]

theorem leave_slot {T : Type} (L L' : Bool) (t t' : Nat) (g : guard T)
    (s : State T) (stk : List (OpenGuard T))
    (hslot : ∀ M u, slot_ref M u s =
      liveFor M u ({ tlocal := L, tid := t, g := g } :: stk))
    (hpg : g._prev = liveFor L t stk) :
    slot_ref L' t' (slot_write L t s g._prev) = liveFor L' t' stk := by
  cases L <;> cases L'
  · rw [slot_ref_global_write_global, hpg]
    exact liveFor_global_tid t t' stk
  · have h := hslot true t'
    rw [liveFor_cons] at h
    simp [sameSlot] at h
    rw [slot_ref_local_write_global]
    exact h
  · have h := hslot false t'
    rw [liveFor_cons] at h
    simp [sameSlot] at h
    rw [slot_ref_global_write_local]
    exact h
  · by_cases ht : t' = t
    · subst ht
      rw [slot_ref_write_self, hpg]
    · have h := hslot true t'
      rw [liveFor_cons] at h
      have hne : t ≠ t' := fun hc => ht hc.symm
      simp [sameSlot, hne] at h
      rw [slot_ref_local_write_local, if_neg ht]
      exact h

theorem step_inv {T : Type} (c : Config T) (op : Op T) (h : configInv c) :
    configInv (step c op) := by
  obtain ⟨s, stk⟩ := c
  obtain ⟨hslot, hprev⟩ := h
  cases op with
  | enter L t x =>
      constructor
      · intro L' t'
        simpa [step, guard_ctor] using enter_slot x L L' t t' s stk hslot
      · exact ⟨hslot L t, hprev⟩
  | leave =>
      cases stk with
      | nil => exact ⟨hslot, hprev⟩
      | cons og rest =>
          obtain ⟨L, t, g⟩ := og
          obtain ⟨hpg, hpr⟩ := hprev
          constructor
          · intro L' t'
            simpa [step, guard_dtor] using
              leave_slot L L' t t' g s rest hslot hpg
          · exact hpr

theorem runOps_inv {T : Type} (ops : List (Op T)) (c : Config T)
    (h : configInv c) : configInv (runOps ops c) := by
  induction ops generalizing c with
  | nil => exact h
  | cons op rest ih =>
      have hstep := step_inv c op h
      simpa [runOps, List.foldl_cons] using ih (step c op) hstep

theorem initConfig_inv (T : Type) : configInv (initConfig T) := by
  constructor
  · intro L t
    cases L <;> simp [initConfig, State.init, slot_ref, liveFor]
  · trivial

/-! ### Balanced traces restore the configuration -/

theorem runOps_append {T : Type} (l1 l2 : List (Op T)) (c : Config T) :
    runOps (l1 ++ l2) c = runOps l2 (runOps l1 c) := by
  simp [runOps, List.foldl_append]

theorem runOps_balanced {T : Type} {ops : List (Op T)} (h : Balanced ops) :
    ∀ c : Config T, runOps ops c = c := by
  induction h with
  | nil => intro c; rfl
  | @block L t x body rest hb hr ihb ihr =>
      intro c
      have h1 : runOps (Op.enter L t x :: body ++ Op.leave :: rest) c =
          runOps (Op.leave :: rest) (runOps body (step c (Op.enter L t x))) := by
        simp [runOps, List.foldl_cons, List.foldl_append]
      have h2 : step (step c (Op.enter L t x)) Op.leave = c := by
        obtain ⟨s, stk⟩ := c
        simp [step, ctor_dtor_roundtrip]
      have h3 : runOps (Op.leave :: rest) (step c (Op.enter L t x)) =
          runOps rest c := by
        simp [runOps, List.foldl_cons, h2]
      rw [h1, ihb, h3, ihr]

/-! ### Accessor congruence -/

theorem get_local_congr {T : Type} (t : Nat) (s1 s2 : State T)
    (h : s1.localTop t = s2.localTop t) : get_local t s1 = get_local t s2 := by
  simp only [get_local]
  rw [h]

theorem get_global_congr {T : Type} (s1 s2 : State T)
    (h : s1.globalTop = s2.globalTop) : get_global s1 = get_global s2 := by
  simp only [get_global]
  rw [h]

theorem get_top_congr {T : Type} (t : Nat) (s1 s2 : State T)
    (h1 : s1.localTop t = s2.localTop t) (h2 : s1.globalTop = s2.globalTop) :
    get_top t s1 = get_top t s2 := by
  simp only [get_top]
  rw [h1, h2]

/-! ### Claims -/

/-- C1: for every payload type, `get_top()` returns the payload of the
innermost live local guard on the calling thread when at least one local guard
is active there, and otherwise the payload of the innermost live global guard
(local shadows global in the resolution order); this holds after any
well-nested trace from the initial state. -/
theorem C1_get_top_resolution {T : Type} (ops : List (Op T)) (t : Nat)
    (_h : wellNested ops = true) :
    get_top t (runOps ops (initConfig T)).1 =
      (match liveFor true t (runOps ops (initConfig T)).2 with
       | x :: _ => Except.ok x
       | [] =>
           match liveFor false t (runOps ops (initConfig T)).2 with
           | [] => Except.error "no available context"
           | y :: _ => Except.ok y) := by
  obtain ⟨hslot, -⟩ := runOps_inv ops (initConfig T) (initConfig_inv T)
  have hl := hslot true t
  have hg := hslot false t
  simp [slot_ref] at hl hg
  simp only [get_top, hl, hg]

/-- C2: after any well-nested sequence of guard constructions and destructions
from the initial state, each slot holds exactly the chain of its live guards —
its top is the payload of the most recently constructed not-yet-destroyed
guard of that (type, scope) and it is empty exactly when no such guard is
alive — and in the initial state every slot is empty. -/
theorem C2_slot_matches_live_guards {T : Type} (ops : List (Op T))
    (_h : wellNested ops = true) :
    (∀ L t,
        slot_ref L t (runOps ops (initConfig T)).1 =
          liveFor L t (runOps ops (initConfig T)).2
        ∧ (slot_ref L t (runOps ops (initConfig T)).1).head? =
            (liveFor L t (runOps ops (initConfig T)).2).head?
        ∧ (slot_ref L t (runOps ops (initConfig T)).1 = [] ↔
            liveFor L t (runOps ops (initConfig T)).2 = []))
    ∧ (∀ L t, slot_ref L t (initConfig T).1 = []) := by
  obtain ⟨hslot, -⟩ := runOps_inv ops (initConfig T) (initConfig_inv T)
  refine ⟨fun L t => ⟨hslot L t, by rw [hslot L t], by rw [hslot L t]⟩, ?_⟩
  intro L t
  cases L <;> simp [initConfig, State.init, slot_ref]

/-- C3: the guard destructor unconditionally writes the saved previous top
back into its slot (it is a total function, so destruction never fails), and
for every slot state, constructing a guard and then destroying it restores
exactly the state that existed immediately before the construction. -/
theorem C3_dtor_restores_prev {T : Type} (L : Bool) (t : Nat) (x : T)
    (g : guard T) (s : State T) :
    slot_ref L t (guard_dtor L t g s) = g._prev
    ∧ guard_dtor L t (guard_ctor L t x s).1 (guard_ctor L t x s).2 = s :=
  ⟨slot_ref_write_self L t s g._prev, ctor_dtor_roundtrip L t x s⟩

/-- C4: guard construction is atomic with respect to payload-construction
failure: the payload is constructed before the slot is read or written, so a
failing payload constructor propagates its error unmodified to the caller,
leaves both slots of the type exactly as they were, and no accessor can
observe a partial push; on success the construction is the ordinary guard
constructor. -/
theorem C4_ctor_failure_atomic {T E : Type} (L : Bool) (t u : Nat) (e : E)
    (x : T) (s : State T) :
    guard_ctor_try L t (Except.error e) s = (Except.error e, s)
    ∧ (guard_ctor_try L t (Except.error e) s).2 = s
    ∧ get_local u (guard_ctor_try L t (Except.error e) s).2 = get_local u s
    ∧ get_global (guard_ctor_try L t (Except.error e) s).2 = get_global s
    ∧ get_top u (guard_ctor_try L t (Except.error e) s).2 = get_top u s
    ∧ (guard_ctor_try L t (Except.ok x) s : Except E (guard T) × State T) =
        (Except.ok (guard_ctor L t x s).1, (guard_ctor L t x s).2) :=
  ⟨rfl, rfl, rfl, rfl, rfl, rfl⟩

/-- C5: in the checked (`TLCONTEXT_DEBUG`) build each accessor aborts with its
diagnostic exactly when its required context is missing, and returns a payload
normally exactly when it is present: `get_local` aborts iff no local guard is
live on the calling thread, `get_global` aborts iff no global guard is live,
and `get_top` aborts iff neither a local guard on this thread nor a global
guard is live. -/
theorem C5_checked_abort_iff {T : Type} (t : Nat) (s : State T) :
    (get_local t s = Except.error "tried using inactive local context" ↔
      s.localTop t = [])
    ∧ ((∃ x, get_local t s = Except.ok x) ↔ s.localTop t ≠ [])
    ∧ (get_global s = Except.error "tried using inactive global context" ↔
      s.globalTop = [])
    ∧ ((∃ x, get_global s = Except.ok x) ↔ s.globalTop ≠ [])
    ∧ (get_top t s = Except.error "no available context" ↔
      (s.localTop t = [] ∧ s.globalTop = []))
    ∧ ((∃ x, get_top t s = Except.ok x) ↔
      ¬(s.localTop t = [] ∧ s.globalTop = [])) := by
  rcases hl : s.localTop t with _ | ⟨a, l⟩ <;>
    rcases hg : s.globalTop with _ | ⟨b, m⟩ <;>
      simp [get_local, get_global, get_top, hl, hg]

/-- C6 counterexample: with a local guard (payload 10) live on thread 0,
installing a global guard with payload 7 and calling `get_top()` immediately
afterwards yields the still-shadowing local payload 10, not the newly
installed guard's payload 7 — so `get_top()` immediately after installing a
guard does not always equal that guard's payload. -/
theorem C6_counterexample :
    get_top 0 (guard_ctor false 0 (7 : Nat)
        (guard_ctor true 0 10 (State.init Nat)).2).2 = Except.ok 10
    ∧ get_top 0 (guard_ctor false 0 (7 : Nat)
        (guard_ctor true 0 10 (State.init Nat)).2).2 ≠ Except.ok 7 := by
  have h : get_top 0 (guard_ctor false 0 (7 : Nat)
      (guard_ctor true 0 10 (State.init Nat)).2).2 = Except.ok 10 := rfl
  refine ⟨h, ?_⟩
  rw [h]
  simp

/-- C6 (amended): `get_top()` invoked immediately after installing a local
guard on the calling thread equals that guard's payload; immediately after
installing a global guard it equals that guard's payload provided no local
guard is live on the calling thread (a live local guard keeps shadowing the
global slot); and immediately after a guard's well-nested scope ends,
`get_top()` returns exactly what it returned immediately before the guard was
installed — including the no-context abort if nothing else is active. -/
theorem C6_get_top_after_install_and_scope {T : Type} (L : Bool) (t : Nat)
    (x : T) (s : State T) (stk : List (OpenGuard T)) (body : List (Op T))
    (hb : Balanced body) :
    get_top t (guard_ctor true t x s).2 = Except.ok x
    ∧ (s.localTop t = [] → get_top t (guard_ctor false t x s).2 = Except.ok x)
    ∧ get_top t (runOps (Op.enter L t x :: body ++ [Op.leave]) (s, stk)).1 =
        get_top t s := by
  refine ⟨?_, ?_, ?_⟩
  · have hl : (guard_ctor true t x s).2.localTop t = x :: slot_ref true t s := by
      simp [guard_ctor, slot_write]
    simp [get_top, hl]
  · intro hl
    have hg : (guard_ctor false t x s).2.globalTop = x :: s.globalTop := by
      simp [guard_ctor, slot_write, slot_ref]
    have hloc : (guard_ctor false t x s).2.localTop t = s.localTop t := by
      simp [guard_ctor, slot_write]
    simp [get_top, hloc, hl, hg]
  · have hbal : Balanced (Op.enter L t x :: body ++ [Op.leave]) :=
      Balanced.block L t x hb Balanced.nil
    rw [runOps_balanced hbal (s, stk)]

/-- C7: installing a local guard for a type does not modify the type's global
slot: with a global guard live and no local guard on the calling thread,
`get_top()` equals the global payload; while the local guard is live, the
global slot and `get_global()` are unchanged and `get_top()` returns the
local payload; and destroying the local guard reverts `get_top()` to the
global payload. -/
theorem C7_local_guard_leaves_global_slot {T : Type} (t : Nat) (x y : T)
    (gs : List T) (s : State T) (hl : s.localTop t = [])
    (hg : s.globalTop = y :: gs) :
    get_top t s = Except.ok y
    ∧ (guard_ctor true t x s).2.globalTop = s.globalTop
    ∧ get_global (guard_ctor true t x s).2 = get_global s
    ∧ get_top t (guard_ctor true t x s).2 = Except.ok x
    ∧ get_top t (guard_dtor true t (guard_ctor true t x s).1
        (guard_ctor true t x s).2) = Except.ok y := by
  have hG : (guard_ctor true t x s).2.globalTop = s.globalTop := by
    simp [guard_ctor, slot_write]
  have hL : (guard_ctor true t x s).2.localTop t = x :: s.localTop t := by
    simp [guard_ctor, slot_write, slot_ref]
  refine ⟨?_, hG, get_global_congr _ _ hG, ?_, ?_⟩
  · simp [get_top, hl, hg]
  · simp [get_top, hL]
  · rw [ctor_dtor_roundtrip]
    simp [get_top, hl, hg]

theorem runOpsT_stU {T U : Type} (ops : List (Op T))
    (p : State2 T U × List (OpenGuard T)) :
    (runOpsT ops p).1.stU = p.1.stU := by
  induction ops generalizing p with
  | nil => rfl
  | cons op rest ih =>
      have h := ih (stepT p op)
      simpa [runOpsT, List.foldl_cons, stepT] using h

/-- C8: type independence — constructing or destroying a guard of payload type
`T` (either scope), and more generally any sequence of `T`-operations, leaves
the slots of a distinct payload type `U` unchanged, with all of `U`'s
accessors returning the same results; distinct payload types never share slot
state. -/
theorem C8_type_independence {T U : Type} (L : Bool) (t u : Nat) (x : T)
    (g : guard T) (ops : List (Op T)) (p : State2 T U)
    (stk : List (OpenGuard T)) :
    (ctorT L t x p).2.stU = p.stU
    ∧ (dtorT L t g p).stU = p.stU
    ∧ (runOpsT ops (p, stk)).1.stU = p.stU
    ∧ get_local u (runOpsT ops (p, stk)).1.stU = get_local u p.stU
    ∧ get_global (runOpsT ops (p, stk)).1.stU = get_global p.stU
    ∧ get_top u (runOpsT ops (p, stk)).1.stU = get_top u p.stU := by
  have hU := runOpsT_stU ops (p, stk)
  exact ⟨rfl, rfl, hU, by rw [hU], by rw [hU], by rw [hU]⟩

/-- C9: thread isolation — the thread-local slot has independent state per
thread: constructing or destroying a local guard on thread `b` leaves thread
`a`'s local slot and its `get_local`/`get_top` results unchanged (so it is
never observable from thread `a`), and local installations on two distinct
threads commute, so simultaneous local guards for the same type on different
threads never interfere. -/
theorem C9_thread_isolation {T : Type} (a b : Nat) (x y : T) (g : guard T)
    (s : State T) (hab : a ≠ b) :
    (guard_ctor true b x s).2.localTop a = s.localTop a
    ∧ get_local a (guard_ctor true b x s).2 = get_local a s
    ∧ get_top a (guard_ctor true b x s).2 = get_top a s
    ∧ (guard_dtor true b g s).localTop a = s.localTop a
    ∧ get_local a (guard_dtor true b g s) = get_local a s
    ∧ get_top a (guard_dtor true b g s) = get_top a s
    ∧ (guard_ctor true b y (guard_ctor true a x s).2).2 =
        (guard_ctor true a x (guard_ctor true b y s).2).2 := by
  have hba : b ≠ a := Ne.symm hab
  have h1 : (guard_ctor true b x s).2.localTop a = s.localTop a := by
    simp [guard_ctor, slot_write, Function.update_noteq hab]
  have h2 : (guard_ctor true b x s).2.globalTop = s.globalTop := by
    simp [guard_ctor, slot_write]
  have h3 : (guard_dtor true b g s).localTop a = s.localTop a := by
    simp [guard_dtor, slot_write, Function.update_noteq hab]
  have h4 : (guard_dtor true b g s).globalTop = s.globalTop := by
    simp [guard_dtor, slot_write]
  refine ⟨h1, get_local_congr a _ _ h1, get_top_congr a _ _ h1 h2, h3,
    get_local_congr a _ _ h3, get_top_congr a _ _ h3 h4, ?_⟩
  apply State.ext
  · simp [guard_ctor, slot_write, slot_ref]
  · simp only [guard_ctor, slot_write, slot_ref, if_true]
    simp only [Function.update_noteq hba, Function.update_noteq hab]
    exact Function.update_comm hab (x :: s.localTop a) (y :: s.localTop b)
      s.localTop

/-- C10: whenever a local guard is live on the calling thread, `get_top()`
never reads the global slot: two states with identical thread-local slots
that differ only in the global slot's contents — including a completely empty
global slot, which raises no diagnostic — give the identical `get_top()`
result, namely the innermost local payload. -/
theorem C10_get_top_ignores_global {T : Type} (t : Nat) (x : T) (l : List T)
    (s s2 : State T) (hloc : s2.localTop = s.localTop)
    (h : s.localTop t = x :: l) :
    get_top t s = Except.ok x ∧ get_top t s2 = get_top t s := by
  constructor
  · simp [get_top, h]
  · simp [get_top, hloc, h]

/-! ### Witnesses: the hypothesis-bearing claim theorems applied at concrete
inputs -/

/-- C1 witness: the resolution theorem at the concrete well-nested trace that
installs a local guard (payload 3) and then a global guard (payload 7) on
thread 0. -/
theorem C1_get_top_resolution_witness :
    get_top 0 (runOps [Op.enter true 0 (3 : Nat), Op.enter false 0 7]
        (initConfig Nat)).1 =
      (match liveFor true 0 (runOps [Op.enter true 0 (3 : Nat),
          Op.enter false 0 7] (initConfig Nat)).2 with
       | x :: _ => Except.ok x
       | [] =>
           match liveFor false 0 (runOps [Op.enter true 0 (3 : Nat),
               Op.enter false 0 7] (initConfig Nat)).2 with
           | [] => Except.error "no available context"
           | y :: _ => Except.ok y) :=
  C1_get_top_resolution [Op.enter true 0 3, Op.enter false 0 7] 0 (by decide)

/-- C2 witness: the slot/live-guard correspondence at the concrete well-nested
trace that installs a global guard (payload 5), then a local guard (payload 3)
on thread 0, then destroys the local guard. -/
theorem C2_slot_matches_live_guards_witness :
    (∀ L t,
        slot_ref L t (runOps [Op.enter false 0 (5 : Nat), Op.enter true 0 3,
            Op.leave] (initConfig Nat)).1 =
          liveFor L t (runOps [Op.enter false 0 (5 : Nat), Op.enter true 0 3,
            Op.leave] (initConfig Nat)).2
        ∧ (slot_ref L t (runOps [Op.enter false 0 (5 : Nat), Op.enter true 0 3,
            Op.leave] (initConfig Nat)).1).head? =
            (liveFor L t (runOps [Op.enter false 0 (5 : Nat), Op.enter true 0 3,
              Op.leave] (initConfig Nat)).2).head?
        ∧ (slot_ref L t (runOps [Op.enter false 0 (5 : Nat), Op.enter true 0 3,
            Op.leave] (initConfig Nat)).1 = [] ↔
            liveFor L t (runOps [Op.enter false 0 (5 : Nat), Op.enter true 0 3,
              Op.leave] (initConfig Nat)).2 = []))
    ∧ (∀ L t, slot_ref L t (initConfig Nat).1 = []) :=
  C2_slot_matches_live_guards
    [Op.enter false 0 5, Op.enter true 0 3, Op.leave] (by decide)

/-- C6 witness: the amended theorem at thread 0, payload 3, the initial state,
an empty live stack and an empty scope body. -/
theorem C6_get_top_after_install_and_scope_witness :
    get_top 0 (guard_ctor true 0 (3 : Nat) (State.init Nat)).2 = Except.ok 3
    ∧ ((State.init Nat).localTop 0 = [] →
        get_top 0 (guard_ctor false 0 (3 : Nat) (State.init Nat)).2 =
          Except.ok 3)
    ∧ get_top 0 (runOps (Op.enter true 0 (3 : Nat) :: [] ++ [Op.leave])
        (State.init Nat, [])).1 = get_top 0 (State.init Nat) :=
  C6_get_top_after_install_and_scope true 0 3 (State.init Nat) [] []
    Balanced.nil

/-- C7 witness: the frame theorem at a state with a live global guard
(payload 5), no local guard, installing local payload 3 on thread 0. -/
theorem C7_local_guard_leaves_global_slot_witness :
    get_top 0 (State.mk [5] (fun _ => [])) = Except.ok 5
    ∧ (guard_ctor true 0 (3 : Nat) (State.mk [5] (fun _ => []))).2.globalTop =
        (State.mk [5] (fun _ => [])).globalTop
    ∧ get_global (guard_ctor true 0 (3 : Nat) (State.mk [5] (fun _ => []))).2 =
        get_global (State.mk [5] (fun _ => []))
    ∧ get_top 0 (guard_ctor true 0 (3 : Nat) (State.mk [5] (fun _ => []))).2 =
        Except.ok 3
    ∧ get_top 0 (guard_dtor true 0
        (guard_ctor true 0 (3 : Nat) (State.mk [5] (fun _ => []))).1
        (guard_ctor true 0 (3 : Nat) (State.mk [5] (fun _ => []))).2) =
        Except.ok 5 :=
  C7_local_guard_leaves_global_slot 0 3 5 [] (State.mk [5] (fun _ => []))
    rfl rfl

/-- C9 witness: thread isolation between threads 0 and 1, local payloads 3 and
4, starting from the initial state. -/
theorem C9_thread_isolation_witness :
    (guard_ctor true 1 (3 : Nat) (State.init Nat)).2.localTop 0 =
        (State.init Nat).localTop 0
    ∧ get_local 0 (guard_ctor true 1 (3 : Nat) (State.init Nat)).2 =
        get_local 0 (State.init Nat)
    ∧ get_top 0 (guard_ctor true 1 (3 : Nat) (State.init Nat)).2 =
        get_top 0 (State.init Nat)
    ∧ (guard_dtor true 1 (guard.mk (9 : Nat) []) (State.init Nat)).localTop 0 =
        (State.init Nat).localTop 0
    ∧ get_local 0 (guard_dtor true 1 (guard.mk (9 : Nat) []) (State.init Nat)) =
        get_local 0 (State.init Nat)
    ∧ get_top 0 (guard_dtor true 1 (guard.mk (9 : Nat) []) (State.init Nat)) =
        get_top 0 (State.init Nat)
    ∧ (guard_ctor true 1 (4 : Nat)
        (guard_ctor true 0 3 (State.init Nat)).2).2 =
        (guard_ctor true 0 (3 : Nat)
          (guard_ctor true 1 4 (State.init Nat)).2).2 :=
  C9_thread_isolation 0 1 3 4 (guard.mk 9 []) (State.init Nat) (by decide)

/-- C10 witness: with local payload 3 live on thread 0, `get_top` returns 3
and is unchanged when the global slot is emptied entirely. -/
theorem C10_get_top_ignores_global_witness :
    get_top 0 (State.mk [5] (fun _ => [3])) = Except.ok 3
    ∧ get_top 0 (State.mk [] (fun _ => [3])) =
        get_top 0 (State.mk [5] (fun _ => [3])) :=
  C10_get_top_ignores_global 0 3 [] (State.mk [5] (fun _ => [3]))
    (State.mk [] (fun _ => [3])) rfl rfl

end tlcontext
